import Mathlib

/-!
Verification development for the homeymind repository.

The file embeds, in Lean, the parts of the code that carry the
behavioural contracts of the device-command execution layer:

* app/agents/device_controller.py : DeviceController.process and
  DeviceController._execute_action (batch action execution);
* agents/coordinator_agent.py : CoordinatorAgent._can_auto_approve
  (approval policy);
* app/core/circuit_breaker.py : CircuitBreaker.execute together with
  its helpers _should_try_half_open and _update_success_count.

Conventions used throughout:

* Python dict lookups with .get are Option values; Python string
  truthiness (None and the empty string are falsy) is the function
  truthy below.
* Python exceptions are Except values; the catch-all except blocks of
  the source become matches on Except.error.
* Wall-clock instants (time.time()) are integers passed explicitly to
  each call; durations of the tenacity retry schedule are counted in
  tenths of a second, so that the wait_exponential multiplier 0.1
  becomes 1, its cap 1.0 becomes 10, and the default stop_after_delay
  budget 2.0 becomes 20.
-/

namespace HomeyMind

/-- A configured device (app/core/config.py); only the id field takes part
in the control flow of DeviceController. -/
structure Device where
  id : String
deriving DecidableEq, Repr

/-- One entry of the actions list handed to DeviceController.process.
The fields mirror action.get of the source: a missing key is none.
The params dict of the source never influences control flow and is
omitted. -/
structure ActionReq where
  device_id : Option String
  action : Option String
deriving DecidableEq, Repr

/-- Python truthiness of an optional string: None and the empty string
are falsy, every other string is truthy. -/
def truthy : Option String → Bool
  | none => false
  | some s => !(s == "")

/-- One per-action result dict appended by DeviceController.process.
The success path fills device_id, status and message; the except path
fills device_id, status and errMsg (the error key of the dict). -/
structure ActionResult where
  device_id : Option String
  status : String
  message : Option String
  errMsg : Option String
deriving DecidableEq, Repr

/-- DeviceController._execute_action. Validation first: the source
raises ValueError when not all of device_id and action name are truthy,
then raises when the device id is not among the configured devices,
and otherwise returns the success dict. The dispatch of
execute_device_action on the success path is counted separately by
dispatchCount. -/
def executeAction (devices : List Device) (a : ActionReq) : Except String ActionResult :=
  match a.device_id, a.action with
  | some did, some act =>
    if did == "" || act == "" then
      Except.error "Missing required action parameters"
    else
      match devices.find? (fun d => d.id == did) with
      | none => Except.error ("Device " ++ did ++ " not found")
      | some _ =>
        Except.ok
          { device_id := some did
            status := "success"
            message := some ("Successfully executed " ++ act)
            errMsg := none }
  | _, _ => Except.error "Missing required action parameters"

/-- Number of execute_device_action dispatches performed by
DeviceController._execute_action for this action: exactly one on the
success path, zero when validation or device lookup fails. The source
creates the coroutine without awaiting it, but this is the only point
at which the messaging client is reached at all. -/
def dispatchCount (devices : List Device) (a : ActionReq) : Nat :=
  match executeAction devices a with
  | Except.ok _ => 1
  | Except.error _ => 0

/-- The per-action step of the loop in DeviceController.process: the
try block appends the result of _execute_action, the except block
appends the error dict built from str(e) and action.get of device_id. -/
def resultOf (devices : List Device) (a : ActionReq) : ActionResult :=
  match executeAction devices a with
  | Except.ok r => r
  | Except.error e =>
    { device_id := a.device_id, status := "error", message := none, errMsg := some e }

/-- The input dict of DeviceController.process: the actions key may be
absent (none) and the requires_confirmation key appears in the tests of
the repository; the source of process never reads it. -/
structure ProcessInput where
  actions : Option (List ActionReq)
  requiresConfirmation : Bool

/-- The return dict of DeviceController.process: either the top-level
error dict (status and error keys, no results) or the batch dict
(status and results keys). -/
inductive ProcessOutput where
  | topError (status : String) (errMsg : String)
  | batch (status : String) (results : List ActionResult)
deriving DecidableEq, Repr

/-- The status key of either return shape of process. -/
def statusOf : ProcessOutput → String
  | ProcessOutput.topError st _ => st
  | ProcessOutput.batch st _ => st

/-- DeviceController.process. Empty or absent actions yield the
top-level error dict; otherwise each action is executed in order, the
per-action results are collected, and the overall status is success
when every result has status success and error otherwise. The second
component counts the execute_device_action dispatches of the whole
batch. -/
def process (devices : List Device) (input : ProcessInput) : ProcessOutput × Nat :=
  let actions := input.actions.getD []
  if actions.isEmpty then
    (ProcessOutput.topError "error" "No actions provided", 0)
  else
    let results := actions.map (resultOf devices)
    let allSuccess := results.all (fun r => r.status == "success")
    (ProcessOutput.batch (if allSuccess then "success" else "error") results,
      (actions.map (dispatchCount devices)).sum)

/-- One auto-approval rule of CoordinatorAgent (config key auto_approval);
the source reads the dict keys apparaat and actie. -/
structure ApprovalRule where
  apparaat : String
  actie : String
deriving DecidableEq, Repr

/-- CoordinatorAgent._can_auto_approve: the loop over the rule list that
returns True on the first rule whose apparaat equals the proposal's
device and whose actie equals the proposal's action, and False when the
loop falls through. -/
def canAutoApprove : List ApprovalRule → String → String → Bool
  | [], _, _ => false
  | r :: rest, device, act =>
    if r.apparaat == device && r.actie == act then true
    else canAutoApprove rest device act

/-- The state strings of CircuitBreaker._state: closed, open, half-open. -/
inductive BState where
  | closed
  | opened
  | halfOpen
deriving DecidableEq, Repr

/-- The mutable fields of a CircuitBreaker instance that its execute
path reads and writes: _state, _last_failure_time and _success_count.
Wall-clock instants are integers. -/
structure BreakerState where
  state : BState
  lastFailureTime : Int
  successCount : Nat
deriving DecidableEq, Repr

/-- The constructor parameters of CircuitBreaker. maxDelay is the
stop_after_delay budget of the tenacity retry decorator, in tenths of a
second (the source default 2.0 seconds is 20). maxRetries is stored by
__init__ but never read by execute. The exceptions tuple becomes the
predicate retryable over the error type E. -/
structure BreakerConfig (E : Type) where
  maxDelay : Nat
  maxRetries : Nat
  retryable : E → Bool
  openTimeout : Int
  successThreshold : Nat

/-- The sleep of tenacity wait_exponential with multiplier 0.1 and max
1.0 after the attempt with 0-based index idx, in tenths of a second:
min (0.1 * 2 ^ idx) 1.0 scaled by ten. -/
def waitExp (idx : Nat) : Nat := min (2 ^ idx) 10

/-- Outcome of CircuitBreaker.execute: the value returned by the
operation, the CircuitBreakerOpen rejection, or the CircuitBreakerError
that wraps the last error raised by the operation. -/
inductive ExecResult (E α : Type) where
  | ok (v : α)
  | circuitOpen
  | wrapped (e : E)
deriving DecidableEq, Repr

/-- The tenacity retry loop wrapped around the operation inside
execute: retry(stop_after_delay maxDelay, wait_exponential 0.1 capped
at 1.0, retry_if_exception_type, reraise). The operation is modelled
as the sequence of its attempt outcomes; idx is the 0-based index of
the current attempt and elapsed the time since the first attempt, in
tenths of a second (attempt durations are taken as zero, so elapsed is
the sum of the sleeps so far). Returns the number of attempts made and
the final outcome: a success stops the loop, a non-retryable error is
reraised at once, a retryable error is reraised once the elapsed time
has reached the budget and otherwise retried after the exponential
sleep. -/
def retryLoop (op : Nat → Except E α) (rb : E → Bool) (maxDelay : Nat)
    (idx elapsed : Nat) : Nat × Except E α :=
  match op idx with
  | Except.ok v => (idx + 1, Except.ok v)
  | Except.error e =>
    if rb e = false then (idx + 1, Except.error e)
    else if maxDelay ≤ elapsed then (idx + 1, Except.error e)
    else retryLoop op rb maxDelay (idx + 1) (elapsed + waitExp idx)
termination_by maxDelay - elapsed
decreasing_by
  have h1 : 1 ≤ waitExp idx := by
    have h2 : (1 : Nat) ≤ 2 ^ idx := Nat.one_le_two_pow
    simp only [waitExp]
    omega
  omega

/-- The body of execute after the open-state gate: the retry loop runs,
a success either feeds _update_success_count (in half-open state:
increment, and on reaching success_threshold set the state to closed
and reset the counter) or sets the state to closed, and any exception
escaping the retry loop records the failure time, zeroes the success
counter, sets the state to open and is wrapped in CircuitBreakerError.
The third component is the number of operation attempts. -/
def runAttempt (cfg : BreakerConfig E) (s : BreakerState) (now : Int)
    (op : Nat → Except E α) : ExecResult E α × BreakerState × Nat :=
  match retryLoop op cfg.retryable cfg.maxDelay 0 0 with
  | (n, Except.ok v) =>
    if s.state = BState.halfOpen then
      if cfg.successThreshold ≤ s.successCount + 1 then
        (ExecResult.ok v,
          { state := BState.closed, lastFailureTime := s.lastFailureTime,
            successCount := 0 }, n)
      else
        (ExecResult.ok v,
          { state := BState.halfOpen, lastFailureTime := s.lastFailureTime,
            successCount := s.successCount + 1 }, n)
    else
      (ExecResult.ok v,
        { state := BState.closed, lastFailureTime := s.lastFailureTime,
          successCount := s.successCount }, n)
  | (n, Except.error e) =>
    (ExecResult.wrapped e,
      { state := BState.opened, lastFailureTime := now, successCount := 0 }, n)

/-- CircuitBreaker.execute. In the open state, when
now - _last_failure_time has not yet reached open_timeout
(_should_try_half_open false), the call is rejected at once with
CircuitBreakerOpen and the operation is never attempted; when the
timeout has elapsed the state is first set to half-open and the call
proceeds. Outside the open state the call goes straight to the retry
loop. -/
def execute (cfg : BreakerConfig E) (s : BreakerState) (now : Int)
    (op : Nat → Except E α) : ExecResult E α × BreakerState × Nat :=
  if s.state = BState.opened then
    if cfg.openTimeout ≤ now - s.lastFailureTime then
      runAttempt cfg
        { state := BState.halfOpen, lastFailureTime := s.lastFailureTime,
          successCount := s.successCount } now op
    else
      (ExecResult.circuitOpen, s, 0)
  else
    runAttempt cfg s now op

/-- A sequence of calls through one breaker: each list entry is the
wall-clock instant of the call and the operation's attempt outcomes.
Returns the final breaker state and, per call, the outcome and the
number of operation attempts. -/
def runCalls (cfg : BreakerConfig E) :
    BreakerState → List (Int × (Nat → Except E α)) →
    BreakerState × List (ExecResult E α × Nat)
  | s, [] => (s, [])
  | s, (now, op) :: rest =>
    let out := execute cfg s now op
    let tail := runCalls cfg out.2.1 rest
    (tail.1, (out.1, out.2.2) :: tail.2)

/-! Helper lemmas. -/

lemma waitExp_pos (idx : Nat) : 1 ≤ waitExp idx := by
  have h2 : (1 : Nat) ≤ 2 ^ idx := Nat.one_le_two_pow
  simp only [waitExp]
  omega

/-- When every attempt of the operation fails with a retryable error,
the retry loop terminates with the error of its last attempt, whatever
the budget and the starting point. -/
lemma retryLoop_allFail (op : Nat → Except E α) (rb : E → Bool) (md : Nat)
    (hop : ∀ n, ∃ e, op n = Except.error e ∧ rb e = true) :
    ∀ fuel idx el, md - el ≤ fuel →
      ∃ k e, retryLoop op rb md idx el = (k + 1, Except.error e) ∧ op k = Except.error e := by
  intro fuel
  induction fuel with
  | zero =>
    intro idx el h
    obtain ⟨e, he, hrb⟩ := hop idx
    refine ⟨idx, e, ?h2, he⟩
    rw [retryLoop, he]
    have hel : md ≤ el := by omega
    simp [hrb, hel]
  | succ f ih =>
    intro idx el h
    obtain ⟨e, he, hrb⟩ := hop idx
    by_cases hel : md ≤ el
    · refine ⟨idx, e, ?h3, he⟩
      rw [retryLoop, he]
      simp [hrb, hel]
    · have h1 : 1 ≤ waitExp idx := waitExp_pos idx
      obtain ⟨k, e2, hk, hok⟩ := ih (idx + 1) (el + waitExp idx) (by omega)
      refine ⟨k, e2, ?h4, hok⟩
      rw [retryLoop, he]
      simp only [hrb, hel]
      simp [hel]
      exact hk

/-- execute reads every configuration field except maxRetries, so two
breakers differing only there run each call identically. -/
lemma execute_mr (md mr1 mr2 : Nat) (rb : E → Bool) (ot : Int) (st : Nat)
    (s : BreakerState) (now : Int) (op : Nat → Except E α) :
    execute ⟨md, mr1, rb, ot, st⟩ s now op = execute ⟨md, mr2, rb, ot, st⟩ s now op := rfl

lemma process_none (devices : List Device) (b : Bool) :
    process devices ⟨none, b⟩ = (ProcessOutput.topError "error" "No actions provided", 0) := rfl

lemma process_nil (devices : List Device) (b : Bool) :
    process devices ⟨some [], b⟩ =
      (ProcessOutput.topError "error" "No actions provided", 0) := rfl

lemma process_cons (devices : List Device) (b : Bool) (a : ActionReq) (rest : List ActionReq) :
    process devices ⟨some (a :: rest), b⟩ =
      (ProcessOutput.batch
        (if ((a :: rest).map (resultOf devices)).all (fun r => r.status == "success")
          then "success" else "error")
        ((a :: rest).map (resultOf devices)),
       ((a :: rest).map (dispatchCount devices)).sum) := rfl

/-- The status key of any return of process is success or error. -/
lemma statusOf_process (devices : List Device) (input : ProcessInput) :
    statusOf (process devices input).1 = "success" ∨
    statusOf (process devices input).1 = "error" := by
  obtain ⟨oacts, b⟩ := input
  rcases oacts with _ | l
  · right
    rfl
  · rcases l with _ | ⟨a, rest⟩
    · right
      rfl
    · rw [process_cons]
      simp only [statusOf]
      cases hA : ((a :: rest).map (resultOf devices)).all (fun r => r.status == "success") <;>
        simp [hA]

/-! Claim theorems. -/

/-- C1 (counterexample): a batch of two actions of which exactly the
first succeeds has 0 < successes < len(results), yet process reports
the overall status error, not the partial_success the claim requires. -/
theorem mixed_batch_status_counterexample :
    (process [⟨"light_1"⟩]
      ⟨some [⟨some "light_1", some "turn_on"⟩, ⟨none, none⟩], false⟩).1
      = ProcessOutput.batch "error"
          [⟨some "light_1", "success", some "Successfully executed turn_on", none⟩,
           ⟨none, "error", none, some "Missing required action parameters"⟩]
    ∧ "error" ≠ "partial_success" := by
  refine ⟨rfl, by decide⟩

/-- C1 (amended): for every non-empty batch, process returns a batch
result whose status is success exactly when every per-action result has
status success, and the status is always one of success and error; the
statuses partial_success and failed are never produced. -/
theorem batch_status_success_or_error (devices : List Device) (b : Bool)
    (acts : List ActionReq) (h : acts ≠ []) :
    ∃ st results, (process devices ⟨some acts, b⟩).1 = ProcessOutput.batch st results ∧
      (st = "success" ↔ ∀ r ∈ results, r.status = "success") ∧
      (st = "success" ∨ st = "error") := by
  obtain ⟨a, rest, rfl⟩ := List.exists_cons_of_ne_nil h
  cases hall : ((a :: rest).map (resultOf devices)).all (fun r => r.status == "success") with
  | true =>
    refine ⟨"success", (a :: rest).map (resultOf devices), ?_, ?_, Or.inl rfl⟩
    · rw [process_cons, hall]
      rfl
    · refine iff_of_true rfl ?_
      intro r hr
      have h6 := List.all_eq_true.mp hall r hr
      simpa using h6
  | false =>
    refine ⟨"error", (a :: rest).map (resultOf devices), ?_, ?_, Or.inr rfl⟩
    · rw [process_cons, hall]
      rfl
    · refine iff_of_false (by decide) ?_
      intro habs
      have h7 : ((a :: rest).map (resultOf devices)).all (fun r => r.status == "success") = true :=
        List.all_eq_true.mpr fun r hr => by simpa using habs r hr
      rw [hall] at h7
      exact Bool.false_ne_true h7

/-- C1 (witness): the amended theorem applied to a concrete singleton
batch. -/
theorem batch_status_success_or_error_witness :
    ∃ st results,
      (process [⟨"light_1"⟩] ⟨some [⟨some "light_1", some "turn_on"⟩], false⟩).1 =
        ProcessOutput.batch st results ∧
      (st = "success" ↔ ∀ r ∈ results, r.status = "success") ∧
      (st = "success" ∨ st = "error") :=
  batch_status_success_or_error [⟨"light_1"⟩] false
    [⟨some "light_1", some "turn_on"⟩] (List.cons_ne_nil _ _)

/-- C2 (counterexample): with requires_confirmation true, a non-empty
batch whose single action no rule auto-approves is still executed:
process returns status success with one result and one messaging
dispatch, not pending_confirmation with an empty result list and zero
side effects. -/
theorem confirmation_flag_counterexample :
    canAutoApprove [] "light_1" "turn_on" = false
    ∧ process [⟨"light_1"⟩] ⟨some [⟨some "light_1", some "turn_on"⟩], true⟩ =
        (ProcessOutput.batch "success"
          [⟨some "light_1", "success", some "Successfully executed turn_on", none⟩], 1)
    ∧ "success" ≠ "pending_confirmation" ∧ (1 : Nat) ≠ 0 := by
  refine ⟨rfl, rfl, by decide, by decide⟩

/-- C2 (amended): process never reads the requires_confirmation flag:
its result is identical for both flag values, and its status is never
pending_confirmation. -/
theorem process_ignores_confirmation (devices : List Device)
    (acts : Option (List ActionReq)) (b1 b2 : Bool) :
    process devices ⟨acts, b1⟩ = process devices ⟨acts, b2⟩ ∧
    statusOf (process devices ⟨acts, b1⟩).1 ≠ "pending_confirmation" := by
  refine ⟨rfl, ?_⟩
  rcases statusOf_process devices ⟨acts, b1⟩ with h2 | h2 <;> rw [h2] <;> decide

/-- C3: while the breaker is open and now - lastFailureTime has not
reached openTimeout, execute rejects the call with the distinct
CircuitBreakerOpen outcome, performs zero operation attempts, and
leaves the breaker state unchanged; as the statement is universal in
the operation and the state is unchanged, this holds for every call
issued during that window. -/
theorem open_breaker_rejects (cfg : BreakerConfig E) (s : BreakerState) (now : Int)
    (op : Nat → Except E α)
    (hs : s.state = BState.opened)
    (ht : now - s.lastFailureTime < cfg.openTimeout) :
    execute cfg s now op = (ExecResult.circuitOpen, s, 0) := by
  have h2 : ¬ (cfg.openTimeout ≤ now - s.lastFailureTime) := not_le.mpr ht
  simp [execute, hs, h2]

/-- C3 (witness): a breaker opened at time 100 with openTimeout 30
rejects a call at time 110. -/
theorem open_breaker_rejects_witness :
    execute ⟨20, 3, (fun _ : Nat => true), 30, 3⟩ ⟨BState.opened, 100, 0⟩ 110
      (fun _ => (Except.ok 0 : Except Nat Nat))
      = (ExecResult.circuitOpen, ⟨BState.opened, 100, 0⟩, 0) :=
  open_breaker_rejects _ _ _ _ rfl (by decide)

/-- C4: whenever the call runs in half-open mode, either because the
state is already half-open or because it is open and openTimeout has
elapsed since lastFailureTime (the lazy entry), a successful call
increments the success counter, closing the breaker and resetting the
counter to 0 as soon as the counter reaches successThreshold, and a
failing call sends the breaker straight back to open with the counter
reset to 0. -/
theorem half_open_transitions (cfg : BreakerConfig E) (s : BreakerState) (now : Int)
    (op : Nat → Except E α)
    (hs : s.state = BState.halfOpen ∨
      (s.state = BState.opened ∧ cfg.openTimeout ≤ now - s.lastFailureTime)) :
    execute cfg s now op =
      match retryLoop op cfg.retryable cfg.maxDelay 0 0 with
      | (n, Except.ok v) =>
        if cfg.successThreshold ≤ s.successCount + 1 then
          (ExecResult.ok v, ⟨BState.closed, s.lastFailureTime, 0⟩, n)
        else
          (ExecResult.ok v, ⟨BState.halfOpen, s.lastFailureTime, s.successCount + 1⟩, n)
      | (n, Except.error e) =>
        (ExecResult.wrapped e, ⟨BState.opened, now, 0⟩, n) := by
  rcases hs with hs | ⟨hs, ht⟩
  · simp only [execute, hs]
    simp only [runAttempt]
    cases hR : retryLoop op cfg.retryable cfg.maxDelay 0 0 with
    | mk n r =>
      cases r with
      | ok v => simp [hs]
      | error e => simp
  · simp only [execute, hs, ht, if_true, if_pos]
    simp only [runAttempt]
    cases hR : retryLoop op cfg.retryable cfg.maxDelay 0 0 with
    | mk n r =>
      cases r with
      | ok v => simp
      | error e => simp

/-- C4 (witness): a half-open breaker with successThreshold 3 and
counter 0 sees one successful call and stays half-open with the counter
at 1. -/
theorem half_open_transitions_witness :
    execute ⟨20, 3, (fun _ : Nat => true), 30, 3⟩ ⟨BState.halfOpen, 0, 0⟩ 50
      (fun _ => (Except.ok 42 : Except Nat Nat))
      = (ExecResult.ok 42, ⟨BState.halfOpen, 0, 1⟩, 1) :=
  (half_open_transitions ⟨20, 3, (fun _ : Nat => true), 30, 3⟩ ⟨BState.halfOpen, 0, 0⟩ 50
    (fun _ => (Except.ok 42 : Except Nat Nat)) (Or.inl rfl)).trans (by simp [retryLoop])

/-- C5: an operation that fails with a retryable error on every attempt
exhausts the retry budget; execute then surfaces the wrapped error
carrying the underlying cause (the error of the last attempt), the
breaker ends open (the single transition of this call), and
lastFailureTime is recorded as the current time. -/
theorem retry_exhaustion_opens_breaker (cfg : BreakerConfig E) (s : BreakerState)
    (now : Int) (op : Nat → Except E α)
    (hs : s.state = BState.closed)
    (hop : ∀ n, ∃ e, op n = Except.error e ∧ cfg.retryable e = true) :
    ∃ k e, op k = Except.error e ∧
      execute cfg s now op = (ExecResult.wrapped e, ⟨BState.opened, now, 0⟩, k + 1) := by
  obtain ⟨k, e, hk, hke⟩ :=
    retryLoop_allFail op cfg.retryable cfg.maxDelay hop cfg.maxDelay 0 0 (by omega)
  refine ⟨k, e, hke, ?h2⟩
  simp [execute, hs, runAttempt, hk]

/-- C5 (witness): a closed breaker with a zero retry budget and an
always-failing retryable operation opens and surfaces the wrapped
error. -/
theorem retry_exhaustion_opens_breaker_witness :
    ∃ k e, (fun _ : Nat => (Except.error 3 : Except Nat Nat)) k = Except.error e ∧
      execute ⟨0, 3, (fun _ : Nat => true), 30, 3⟩ ⟨BState.closed, 0, 0⟩ 7
        (fun _ => (Except.error 3 : Except Nat Nat))
        = (ExecResult.wrapped e, ⟨BState.opened, 7, 0⟩, k + 1) :=
  retry_exhaustion_opens_breaker _ _ _ _ rfl (fun _ => ⟨3, rfl, rfl⟩)

/-- C6 (counterexample): a closed breaker whose retryable set excludes
the raised error still records the failure: the single non-retryable
error leaves the breaker open with the success counter cleared and
lastFailureTime updated, and the error is surfaced wrapped in
CircuitBreakerError, so the breaker state is not left unchanged as the
claim requires. -/
theorem non_retryable_counterexample :
    execute ⟨20, 3, (fun _ : Nat => false), 30, 3⟩ ⟨BState.closed, 0, 2⟩ 100
      (fun _ => (Except.error 7 : Except Nat Nat))
      = (ExecResult.wrapped 7, ⟨BState.opened, 100, 0⟩, 1)
    ∧ (⟨BState.opened, 100, 0⟩ : BreakerState) ≠ ⟨BState.closed, 0, 2⟩ := by
  constructor
  · simp [execute, runAttempt, retryLoop]
  · decide

/-- C6 (amended): a non-retryable error is indeed surfaced after its
first occurrence with no retry (exactly one operation attempt), but it
is wrapped in CircuitBreakerError rather than propagated unchanged, and
the breaker state is not preserved: the breaker opens, the success
counter resets to 0 and lastFailureTime is set to the current time. -/
theorem non_retryable_single_attempt (cfg : BreakerConfig E) (s : BreakerState)
    (now : Int) (op : Nat → Except E α) (e : E)
    (hs : s.state = BState.closed) (hop : op 0 = Except.error e)
    (hrb : cfg.retryable e = false) :
    execute cfg s now op = (ExecResult.wrapped e, ⟨BState.opened, now, 0⟩, 1) := by
  have h2 : retryLoop op cfg.retryable cfg.maxDelay 0 0 = (1, Except.error e) := by
    rw [retryLoop, hop]
    simp [hrb]
  simp [execute, hs, runAttempt, h2]

/-- C6 (witness): the amended theorem at the concrete input of the
counterexample. -/
theorem non_retryable_single_attempt_witness :
    execute ⟨20, 3, (fun _ : Nat => false), 30, 3⟩ ⟨BState.closed, 0, 2⟩ 100
      (fun _ => (Except.error 7 : Except Nat Nat))
      = (ExecResult.wrapped 7, ⟨BState.opened, 100, 0⟩, 1) :=
  non_retryable_single_attempt _ _ _ _ 7 rfl rfl rfl

/-- C7 (counterexample): an action with missing required fields is
recorded as a failed result whose error string is the source's
Missing required action parameters, which differs from the claimed
message missing required parameters; the batch still continues past
it. -/
theorem missing_params_message_counterexample :
    (process []
      ⟨some [⟨none, none⟩, ⟨none, some "turn_on"⟩], false⟩).1
      = ProcessOutput.batch "error"
          [⟨none, "error", none, some "Missing required action parameters"⟩,
           ⟨none, "error", none, some "Missing required action parameters"⟩]
    ∧ (some "Missing required action parameters" : Option String)
        ≠ some "missing required parameters" := by
  refine ⟨rfl, by decide⟩

/-- C7 (amended): every non-empty batch is processed per action, left
to right, each action contributing exactly the result of its own
execution with every raised error caught and recorded (process never
raises for a per-action failure); an action with missing required
fields yields a failed result with error message
Missing required action parameters and the batch continues; an absent
or empty action list yields the distinct top-level error result
No actions provided instead of a batch result. -/
theorem per_action_isolation (devices : List Device) (b : Bool) (acts : List ActionReq)
    (a : ActionReq)
    (h : acts ≠ []) (ha : (truthy a.device_id && truthy a.action) = false) :
    (∃ st, (process devices ⟨some acts, b⟩).1 =
        ProcessOutput.batch st (acts.map (resultOf devices)))
    ∧ resultOf devices a =
        ⟨a.device_id, "error", none, some "Missing required action parameters"⟩
    ∧ (process devices ⟨none, b⟩).1 = ProcessOutput.topError "error" "No actions provided"
    ∧ (process devices ⟨some [], b⟩).1 =
        ProcessOutput.topError "error" "No actions provided" := by
  obtain ⟨a2, rest, rfl⟩ := List.exists_cons_of_ne_nil h
  refine ⟨⟨_, by rw [process_cons]⟩, ?_, rfl, rfl⟩
  rcases a with ⟨did, act⟩
  rcases did with _ | d
  · simp [resultOf, executeAction]
  · rcases act with _ | ac
    · simp [resultOf, executeAction]
    · simp only [truthy, Bool.and_eq_false_iff, Bool.not_eq_false'] at ha
      rcases ha with ha | ha <;> simp_all [resultOf, executeAction]

/-- C7 (witness): the amended theorem at a concrete batch containing
one invalid action. -/
theorem per_action_isolation_witness :
    (∃ st, (process ([] : List Device) ⟨some [⟨none, none⟩], false⟩).1 =
        ProcessOutput.batch st (([⟨none, none⟩] : List ActionReq).map (resultOf [])))
    ∧ resultOf [] ⟨none, none⟩ =
        ⟨none, "error", none, some "Missing required action parameters"⟩
    ∧ (process ([] : List Device) ⟨none, false⟩).1 =
        ProcessOutput.topError "error" "No actions provided"
    ∧ (process ([] : List Device) ⟨some [], false⟩).1 =
        ProcessOutput.topError "error" "No actions provided" :=
  per_action_isolation [] false [⟨none, none⟩] ⟨none, none⟩ (List.cons_ne_nil _ _) rfl

/-- C8: _can_auto_approve is a pure function of the rule list, the
device and the action: it returns true exactly when some rule matches
both fields by string equality, and identical arguments always yield
the identical boolean. -/
theorem can_auto_approve_exact_match (rules : List ApprovalRule) (device act : String) :
    (canAutoApprove rules device act = true ↔
      ∃ r ∈ rules, r.apparaat = device ∧ r.actie = act)
    ∧ canAutoApprove rules device act = canAutoApprove rules device act := by
  refine ⟨?h2, rfl⟩
  induction rules with
  | nil => simp [canAutoApprove]
  | cons r rest ih =>
    by_cases hr : (r.apparaat == device && r.actie == act) = true
    · have h3 : r.apparaat = device ∧ r.actie = act := by
        simpa [Bool.and_eq_true, beq_iff_eq] using hr
      simp only [canAutoApprove, hr, if_true, true_iff]
      exact ⟨r, List.mem_cons_self r rest, h3⟩
    · have h4 : ¬(r.apparaat = device ∧ r.actie = act) := by
        rintro ⟨h5, h6⟩
        exact hr (by simp [h5, h6])
      simp only [canAutoApprove, hr, if_false, Bool.false_eq_true, if_neg, ih]
      constructor
      · rintro ⟨x, hx, hxx⟩
        exact ⟨x, List.mem_cons_of_mem r hx, hxx⟩
      · rintro ⟨x, hx, hxx⟩
        rcases List.mem_cons.mp hx with h7 | h7
        · subst h7
          exact absurd hxx h4
        · exact ⟨x, h7, hxx⟩

/-- C9: the observable behaviour of execute over any sequence of calls
(per-call outcome, number of operation attempts, and every state
transition) is unchanged when only the max_retries constructor
parameter differs: the retry loop is bounded by elapsed time
(max_delay), never by the attempt count. -/
theorem execute_ignores_max_retries (cfg1 cfg2 : BreakerConfig E)
    (s : BreakerState) (ops : List (Int × (Nat → Except E α)))
    (hmd : cfg1.maxDelay = cfg2.maxDelay) (hrb : cfg1.retryable = cfg2.retryable)
    (hot : cfg1.openTimeout = cfg2.openTimeout)
    (hst : cfg1.successThreshold = cfg2.successThreshold) :
    runCalls cfg1 s ops = runCalls cfg2 s ops := by
  obtain ⟨md1, mr1, rb1, ot1, st1⟩ := cfg1
  obtain ⟨md2, mr2, rb2, ot2, st2⟩ := cfg2
  dsimp only at hmd hrb hot hst
  subst hmd hrb hot hst
  induction ops generalizing s with
  | nil => rfl
  | cons p rest ih =>
    obtain ⟨now, op⟩ := p
    simp only [runCalls]
    rw [execute_mr md1 mr1 mr2 rb1 ot1 st1 s now op, ih]

/-- C9 (witness): two breakers whose configurations differ only in
max_retries run an identical two-call sequence identically. -/
theorem execute_ignores_max_retries_witness :
    runCalls ⟨0, 1, (fun _ : Nat => true), 30, 3⟩ ⟨BState.closed, 0, 0⟩
      [((5 : Int), fun _ => (Except.ok 1 : Except Nat Nat)),
       ((6 : Int), fun _ => (Except.error 0 : Except Nat Nat))] =
    runCalls ⟨0, 99, (fun _ : Nat => true), 30, 3⟩ ⟨BState.closed, 0, 0⟩
      [((5 : Int), fun _ => (Except.ok 1 : Except Nat Nat)),
       ((6 : Int), fun _ => (Except.error 0 : Except Nat Nat))] :=
  execute_ignores_max_retries _ _ _ _ rfl rfl rfl rfl

/-- C10: every non-empty batch yields exactly one result per input
action, in input order (the result list is the map of the per-action
step over the actions), and the top-level status of any process return,
batch or top-level error alike, is always either success or error. -/
theorem process_result_shape (devices : List Device) (b : Bool) (acts : List ActionReq)
    (input : ProcessInput) (h : acts ≠ []) :
    (∃ st, (process devices ⟨some acts, b⟩).1 =
        ProcessOutput.batch st (acts.map (resultOf devices))
      ∧ (acts.map (resultOf devices)).length = acts.length
      ∧ (st = "success" ∨ st = "error"))
    ∧ (statusOf (process devices input).1 = "success" ∨
       statusOf (process devices input).1 = "error") := by
  refine ⟨?_, statusOf_process devices input⟩
  obtain ⟨a, rest, rfl⟩ := List.exists_cons_of_ne_nil h
  cases hall : ((a :: rest).map (resultOf devices)).all (fun r => r.status == "success") with
  | true =>
    refine ⟨"success", ?_, by simp, Or.inl rfl⟩
    rw [process_cons, hall]
    rfl
  | false =>
    refine ⟨"error", ?_, by simp, Or.inr rfl⟩
    rw [process_cons, hall]
    rfl

/-- C10 (witness): the shape theorem at a concrete one-action batch. -/
theorem process_result_shape_witness :
    (∃ st, (process [⟨"light_1"⟩] ⟨some [⟨some "light_1", some "turn_on"⟩], false⟩).1 =
        ProcessOutput.batch st
          (([⟨some "light_1", some "turn_on"⟩] : List ActionReq).map (resultOf [⟨"light_1"⟩]))
      ∧ (([⟨some "light_1", some "turn_on"⟩] : List ActionReq).map
          (resultOf [⟨"light_1"⟩])).length
          = ([⟨some "light_1", some "turn_on"⟩] : List ActionReq).length
      ∧ (st = "success" ∨ st = "error"))
    ∧ (statusOf (process [⟨"light_1"⟩] ⟨none, false⟩).1 = "success" ∨
       statusOf (process [⟨"light_1"⟩] ⟨none, false⟩).1 = "error") :=
  process_result_shape [⟨"light_1"⟩] false [⟨some "light_1", some "turn_on"⟩]
    ⟨none, false⟩ (List.cons_ne_nil _ _)

end HomeyMind
